import Mathlib

/-! SI7021 / HTU21D sensor driver (`espurna/sensors/SI7021Sensor.h`)

A shallow embedding of the class `SI7021Sensor`.  The fields of the object are a
record `Sensor`; everything outside the object (the two-wire bus, the address
discovery of the base class, the millisecond clock) is a record `Bus` that
holds a trace of the operations performed so far together with the scripted
answers of the environment.  Every method is a function from the state of the
object and of the bus to their new states.

Conventions:
* the build configuration is `I2C_USE_BRZO = 0`, the `Wire` backend (the
  `#else` branches of `_init` and `_read`);
* the environment is deterministic and scripted: `Bus` carries the answers the
  outside world will give (acknowledgements, bytes delivered, durations of
  `delay`), so "every behaviour of the bus" is "every value of `Bus`";
* `unsigned char` is a natural number reduced modulo `2^8`, `unsigned int` and
  `unsigned long` are natural numbers reduced modulo `2^32`;
* a `double` is the rational number it denotes; every literal that is not
  representable and every arithmetic operation on `double` is followed by the
  rounding `roundDouble`;
* time passes only inside `delay`, and `Bus.stamps` records the instant of every
  bus operation.
-/

namespace SI7021Sensor

/-! ## Constants of the source -/

def SI7021_CHIP_SI7021 : Nat := 0x15
def SI7021_CHIP_HTU21D : Nat := 0x32

def SI7021_CMD_TMP_HOLD : Nat := 0xE3
def SI7021_CMD_HUM_HOLD : Nat := 0xE5
def SI7021_CMD_TMP_NOHOLD : Nat := 0xF3
def SI7021_CMD_HUM_NOHOLD : Nat := 0xF5

/-- Modelled from the spec: the `SENSOR_ERROR_*` codes are declared in the base
sensor header, which is not among the sources.  The spec lists the values of
`last_error`: Ok, AddressNotFound, UnknownIdentity, OutOfRange and
BusReadFailure; the three that the driver names keep their source names. -/
inductive SensorError where
  | SENSOR_ERROR_OK
  | AddressNotFound
  | SENSOR_ERROR_UNKNOWN_ID
  | SENSOR_ERROR_OUT_OF_RANGE
  | BusReadFailure
  deriving DecidableEq, Repr

/-- Modelled from the spec: the `MAGNITUDE_*` codes are declared outside the
sources; the spec names them "temperature", "humidity" and the "none"
sentinel. -/
inductive Magnitude where
  | MAGNITUDE_NONE
  | MAGNITUDE_TEMPERATURE
  | MAGNITUDE_HUMIDITY
  deriving DecidableEq, Repr

open SensorError Magnitude

/-! ## The environment: bus, discovery, clock -/

/-- One operation performed on the environment that is visible on the bus. -/
inductive BusOp where
  /-- presence check of a candidate address during discovery -/
  | probe (address : Nat)
  /-- call of `i2cReleaseLock(address)` -/
  | releaseLock (address : Nat)
  /-- call of `Wire.beginTransmission(address)` -/
  | beginTransmission (address : Nat)
  /-- call of `Wire.write(byte)` -/
  | write (byte : Nat)
  /-- call of `Wire.endTransmission()` -/
  | endTransmission
  /-- call of `Wire.requestFrom(address, quantity)` -/
  | requestFrom (address : Nat) (quantity : Nat)
  /-- call of `Wire.read()` -/
  | read
  deriving DecidableEq, Repr

/-- State of the environment.
* `trace`: the bus operations performed so far, oldest first;
* `stamps`: the value of `now` at which each operation of `trace` was
  performed, in the same order;
* `acks`: scripted answers of the presence checks still to come (a check made
  after the script has run out is not acknowledged);
* `replies`: scripted answers of the device to the read requests still to come
  (a request made after the script has run out receives no byte);
* `rx`: the bytes waiting in the receive buffer of `Wire`;
* `now`: the millisecond counter;
* `ticks`: scripted extra durations of the calls of `delay` still to come. -/
structure Bus where
  trace : List BusOp
  stamps : List Nat
  acks : List Bool
  replies : List (List Nat)
  rx : List Nat
  now : Nat
  ticks : List Nat
  deriving DecidableEq, Repr

/-- Fields of the object: `_dirty`, `_address`, `_error`, `_count` come from the
base classes, `_chip`, `_temperature`, `_humidity` are declared by the driver. -/
structure Sensor where
  _dirty : Bool
  _address : Nat
  _error : SensorError
  _count : Nat
  _chip : Nat
  _temperature : ℚ
  _humidity : ℚ
  deriving DecidableEq, Repr

/-- Conversion of the `int` returned by `Wire.read()` to `unsigned char`. -/
def toUChar (i : Int) : Nat := (i % 256).toNat

/-- Conversion of the `int` returned by `Wire.read()` to `unsigned int`. -/
def toUInt (i : Int) : Nat := (i % 4294967296).toNat

/-- Library call `Wire.beginTransmission(address)`. -/
def Wire.beginTransmission (bus : Bus) (address : Nat) : Bus :=
  { bus with
    trace := bus.trace ++ [BusOp.beginTransmission address]
    stamps := bus.stamps ++ [bus.now] }

/-- Library call `Wire.write(byte)`. -/
def Wire.write (bus : Bus) (byte : Nat) : Bus :=
  { bus with trace := bus.trace ++ [BusOp.write byte], stamps := bus.stamps ++ [bus.now] }

/-- Library call `Wire.endTransmission()`; the driver ignores its status. -/
def Wire.endTransmission (bus : Bus) : Bus :=
  { bus with trace := bus.trace ++ [BusOp.endTransmission], stamps := bus.stamps ++ [bus.now] }

/-- Library call `Wire.requestFrom(address, quantity)`: the receive buffer is replaced by
what the device delivers, at most `quantity` bytes. -/
def Wire.requestFrom (bus : Bus) (address : Nat) (quantity : Nat) : Bus :=
  { bus with
    trace := bus.trace ++ [BusOp.requestFrom address quantity]
    stamps := bus.stamps ++ [bus.now]
    rx := (bus.replies.headD []).take quantity
    replies := bus.replies.tail }

/-- Library call `Wire.read()`: the next byte of the receive buffer, or `-1` when the
buffer is empty. -/
def Wire.read (bus : Bus) : Int × Bus :=
  let r : Int :=
    match bus.rx.head? with
    | none => -1
    | some b => ((b % 256 : Nat) : Int)
  (r, { bus with
    trace := bus.trace ++ [BusOp.read]
    stamps := bus.stamps ++ [bus.now]
    rx := bus.rx.tail })

/-- Library call `millis()`: the 32-bit millisecond counter. -/
def millis (bus : Bus) : Nat × Bus := (bus.now % 4294967296, bus)

/-- Library call `delay(ms)`: at least `ms` milliseconds pass; the scripted tick is the
extra time this call takes. -/
def delay (bus : Bus) (ms : Nat) : Bus :=
  { bus with now := bus.now + ms + bus.ticks.headD 0, ticks := bus.ticks.tail }

/-- Modelled from the spec: `i2cReleaseLock` belongs to the bus transport,
which is not among the sources; it is "an address-lock-release operation
invoked on identification failure" and is recorded on the trace. -/
def i2cReleaseLock (bus : Bus) (address : Nat) : Bus :=
  { bus with
    trace := bus.trace ++ [BusOp.releaseLock address]
    stamps := bus.stamps ++ [bus.now] }

/-- Whether the next presence check is acknowledged. -/
def Bus.nextAck (bus : Bus) : Bool := bus.acks.headD false

/-- Presence checks of the candidates in order: the first address that
acknowledges, or `0`. -/
def probeCandidates : List Nat → Bus → Nat × Bus
  | [], bus => (0, bus)
  | a :: rest, bus =>
    let bus1 := { bus with
      trace := bus.trace ++ [BusOp.probe a]
      stamps := bus.stamps ++ [bus.now]
      acks := bus.acks.tail }
    if bus.nextAck then (a, bus1) else probeCandidates rest bus1

/-- Modelled from the spec: `_begin_i2c` is a method of the base class
`I2CSensor`, which is not among the sources.  The spec: "Probe a fixed
candidate address list using the external bus transport acknowledge-based
presence check.  If no candidate acknowledges, [...] record an
address-not-found condition"; the address returned is then `0`.  The spec
describes the discovery over the candidates only, so the address passed in
(the current `_address`) takes no part. -/
def _begin_i2c (s : Sensor) (bus : Bus) (_address : Nat) (size : Nat) (addresses : List Nat) :
    Nat × Sensor × Bus :=
  let (found, bus) := probeCandidates (addresses.take size) bus
  if found = 0 then (0, { s with _error := AddressNotFound }, bus) else (found, s, bus)

/-- The macro `constrain(amt, low, high)` of `Arduino.h`. -/
def constrain (amt low high : ℚ) : ℚ :=
  if amt < low then low else if amt > high then high else amt

/-! ## The methods of `SI7021Sensor` -/

/-- Method `SI7021Sensor::_init()`. -/
def _init (s : Sensor) (bus : Bus) : Sensor × Bus :=
  let bus := Wire.beginTransmission bus s._address
  let bus := Wire.write bus 0xFC
  let bus := Wire.write bus 0xC9
  let bus := Wire.endTransmission bus
  let bus := Wire.requestFrom bus s._address 1
  let (r, bus) := Wire.read bus
  let s := { s with _chip := toUChar r }
  if s._chip ≠ SI7021_CHIP_SI7021 ∧ s._chip ≠ SI7021_CHIP_HTU21D then
    let bus := i2cReleaseLock bus s._address
    ({ s with _error := SENSOR_ERROR_UNKNOWN_ID, _count := 0 }, bus)
  else
    ({ s with _count := 2 }, bus)

/-- Method `SI7021Sensor::begin()`: "Initialization method, must be idempotent". -/
def begin (s : Sensor) (bus : Bus) : Sensor × Bus :=
  if !s._dirty then (s, bus) else
  let s := { s with _dirty := false }
  let addresses : List Nat := [0x40]
  let (a, s, bus) := _begin_i2c s bus s._address addresses.length addresses
  let s := { s with _address := a }
  if s._address = 0 then (s, bus) else
  _init s bus

/-- The loop `while (millis() - start < 50) delay(1);` run for at most `fuel`
tests of its condition; the subtraction is that of `unsigned long`. -/
def waitLoop : Nat → Nat → Bus → Bus
  | 0, _, bus => bus
  | fuel + 1, start, bus =>
    let (m, bus) := millis bus
    if (m + 4294967296 - start) % 4294967296 < 50 then waitLoop fuel start (delay bus 1) else bus

/-- Number of tests after which the loop of `_read` has been left: every call
of `delay` consumes one scripted tick, and once the script is empty each call
advances the counter by exactly one millisecond. -/
def waitFuel (bus : Bus) : Nat := bus.ticks.length + 50

/-- Method `SI7021Sensor::_read(command)`. -/
def _read (s : Sensor) (bus : Bus) (command : Nat) : Nat × Sensor × Bus :=
  let bytes : Nat := if command = 0xE0 then 2 else 3
  let bus := Wire.beginTransmission bus s._address
  let bus := Wire.write bus command
  let bus := Wire.endTransmission bus
  let (start, bus) := millis bus
  let bus := waitLoop (waitFuel bus) start bus
  let bus := Wire.requestFrom bus s._address bytes
  let (r, bus) := Wire.read bus
  let msb : Nat := toUInt r
  let (r, bus) := Wire.read bus
  let lsb : Nat := toUInt r
  let lsb := lsb &&& 0xFC
  let value : Nat := ((msb <<< 8) % 4294967296) ||| lsb
  let s := { s with _error := SENSOR_ERROR_OK }
  (value, s, bus)

/-- Rounding of a rational to the nearest integer, a tie going to the even
neighbour. -/
def roundHalfEven (q : ℚ) : ℤ :=
  let f := ⌊q⌋
  if q - f < 1 / 2 then f
  else if 1 / 2 < q - f then f + 1
  else if f % 2 = 0 then f else f + 1

/-- Rounding of an exact result to `double` (IEEE 754 binary64, round to
nearest, ties to even): the nearest multiple of the unit in the last place of
a 53-bit significand.  The exponent range is not modelled: every value the
driver computes from a 32-bit raw value lies between `2^-60` and `2^41` in
magnitude, or is zero. -/
def roundDouble (x : ℚ) : ℚ :=
  if x = 0 then 0
  else
    let ulp : ℚ := 2 ^ (Int.log 2 |x| - 52)
    roundHalfEven (x / ulp) * ulp

/-- The expression `(175.72 * value / 65536) - 46.85` of `pre()`, evaluated in
`double`: the two literals that are not representable and each of the three
operations are rounded (65536 is representable). -/
def temperatureOf (value : ℚ) : ℚ :=
  roundDouble (roundDouble (roundDouble (roundDouble 175.72 * value) / 65536) - roundDouble 46.85)

/-- The statements `value = (125.0 * value / 65536) - 6;` and
`constrain(value, 0, 100)` of `pre()`, evaluated in `double`: each of the three
operations is rounded (the literals are representable). -/
def humidityOf (value : ℚ) : ℚ :=
  let value := roundDouble (roundDouble (roundDouble (125.0 * value) / 65536) - 6)
  constrain value 0 100

/-- Method `SI7021Sensor::pre()`. -/
def pre (s : Sensor) (bus : Bus) : Sensor × Bus :=
  let s := { s with _error := SENSOR_ERROR_UNKNOWN_ID }
  if s._chip = 0 then (s, bus) else
  let s := { s with _error := SENSOR_ERROR_OK }
  let (value, s, bus) := _read s bus SI7021_CMD_TMP_NOHOLD
  if s._error ≠ SENSOR_ERROR_OK then (s, bus) else
  let s := { s with _temperature := temperatureOf (value : ℚ) }
  let (value, s, bus) := _read s bus SI7021_CMD_HUM_NOHOLD
  if s._error ≠ SENSOR_ERROR_OK then (s, bus) else
  let s := { s with _humidity := humidityOf (value : ℚ) }
  (s, bus)

/-- Method `SI7021Sensor::type(index)`. -/
def type (s : Sensor) (bus : Bus) (index : Nat) : Magnitude × Sensor × Bus :=
  let s := { s with _error := SENSOR_ERROR_OK }
  if index = 0 then (MAGNITUDE_TEMPERATURE, s, bus) else
  if index = 1 then (MAGNITUDE_HUMIDITY, s, bus) else
  let s := { s with _error := SENSOR_ERROR_OUT_OF_RANGE }
  (MAGNITUDE_NONE, s, bus)

/-- Method `SI7021Sensor::value(index)`. -/
def value (s : Sensor) (bus : Bus) (index : Nat) : ℚ × Sensor × Bus :=
  let s := { s with _error := SENSOR_ERROR_OK }
  if index = 0 then (s._temperature, s, bus) else
  if index = 1 then (s._humidity, s, bus) else
  let s := { s with _error := SENSOR_ERROR_OUT_OF_RANGE }
  (0, s, bus)

/-- The constant `si7021_chip_si7021_name`. -/
def si7021_chip_si7021_name : List Char := "SI7021".toList

/-- The constant `si7021_chip_htu21d_name`. -/
def si7021_chip_htu21d_name : List Char := "HTU21D".toList

/-- Library call `strncpy_P(dest, src, n)`: at most `n` characters of `src` are
copied; a shorter source is copied whole and the rest of `dest` is padding. -/
def strncpy_P (src : List Char) (n : Nat) : List Char := src.take n

/-- The conversion `%02X` of `snprintf`: upper-case hexadecimal digits, padded
on the left with zeros to a width of two. -/
def fmt02X (n : Nat) : List Char :=
  let digits := (Nat.toDigits 16 n).map Char.toUpper
  List.replicate (2 - digits.length) '0' ++ digits

/-- Library call `snprintf(buffer, size, "%s @ I2C (0x%02X)", name, address)`:
at most `size - 1` characters of the formatted text are stored. -/
def snprintf (size : Nat) (name : List Char) (address : Nat) : List Char :=
  (name ++ " @ I2C (0x".toList ++ fmt02X address ++ ")".toList).take (size - 1)

/-- Method `SI7021Sensor::description()`. -/
def description (s : Sensor) (bus : Bus) : String × Sensor × Bus :=
  let name := strncpy_P
    (if s._chip = SI7021_CHIP_SI7021 then si7021_chip_si7021_name else si7021_chip_htu21d_name)
    10
  let buffer := snprintf 25 name s._address
  (String.mk buffer, s, bus)

/-- Method `SI7021Sensor::slot(index)`. -/
def slot (s : Sensor) (bus : Bus) (_index : Nat) : String × Sensor × Bus :=
  description s bus

/-- Upper-case hexadecimal digit of value `d`, read off the digit alphabet; the
reference against which the output of `%02X` is compared. -/
def hexUpper (d : Nat) : Char := "0123456789ABCDEF".toList.getD d '0'

/-- One call of the public interface by the owning framework. -/
inductive Call where
  | setup
  | acquire
  | channel_type (index : Nat)
  | channel_value (index : Nat)
  | describe
  | channel_label (index : Nat)
  deriving DecidableEq, Repr

/-- Effect of one call on the object and the bus; the value returned to the
caller is dropped. -/
def call : Call → Sensor × Bus → Sensor × Bus
  | Call.setup, st => begin st.1 st.2
  | Call.acquire, st => pre st.1 st.2
  | Call.channel_type index, st => (type st.1 st.2 index).2
  | Call.channel_value index, st => (value st.1 st.2 index).2
  | Call.describe, st => (description st.1 st.2).2
  | Call.channel_label index, st => (slot st.1 st.2 index).2

/-- Effect of a sequence of calls, the first of the list first. -/
def run : List Call → Sensor × Bus → Sensor × Bus
  | [], st => st
  | c :: cs, st => run cs (call c st)

/-- Modelled from the spec: the defaults of the fields of the base classes are
declared outside the sources.  "The instance is created empty (uninitialized,
unidentified)", with address `0`, no channel, both readings `0.0`.  The source
declares `_chip` without an initializer; the unidentified chip is taken as `0`,
the value the gate of `pre()` tests. -/
def fresh : Sensor :=
  { _dirty := true, _address := 0, _error := SENSOR_ERROR_OK, _count := 0, _chip := 0,
    _temperature := 0, _humidity := 0 }

/-- A bus on which nothing has happened yet, with the given scripts. -/
def idle (acks : List Bool) (replies : List (List Nat)) : Bus :=
  { trace := [], stamps := [], acks := acks, replies := replies, rx := [], now := 0,
    ticks := [] }

/-- Scenario: the device acknowledges the probe and answers the identification
with the unrecognized byte `0xFF`, then answers two measurement commands. -/
def misidentified : Sensor × Bus :=
  begin fresh (idle [true] [[0xFF], [0x60, 0x00, 0x5A], [0x80, 0x02, 0x11]])

/-- Scenario: the device identifies itself as `0x15`, answers two measurement
commands and then stops delivering data. -/
def identified : Sensor × Bus :=
  begin fresh (idle [true] [[0x15], [0x60, 0x00, 0x5A], [0x80, 0x02, 0x11]])

/-- First acquisition of the scenario `identified`: both reads are answered. -/
def acquired : Sensor × Bus := pre identified.1 identified.2

/-- Second acquisition of the scenario `identified`: no read is answered. -/
def starved : Sensor × Bus := pre acquired.1 acquired.2

/-! ## Auxiliary facts -/

theorem begin_of_not_dirty (s : Sensor) (bus : Bus) (h : s._dirty = false) :
    begin s bus = (s, bus) := by
  simp [begin, h]

theorem _init_dirty (s : Sensor) (bus : Bus) : (_init s bus).1._dirty = s._dirty := by
  unfold _init
  simp only []
  split <;> rfl

theorem _begin_i2c_dirty (s : Sensor) (bus : Bus) (a n : Nat) (l : List Nat) :
    (_begin_i2c s bus a n l).2.1._dirty = s._dirty := by
  unfold _begin_i2c
  simp only []
  split <;> rfl

theorem begin_dirty (s : Sensor) (bus : Bus) : (begin s bus).1._dirty = false := by
  unfold begin
  cases h : s._dirty
  · simp [h]
  · simp only [Bool.not_true, Bool.false_eq_true, if_false]
    split
    · simp [_begin_i2c_dirty]
    · simp [_init_dirty, _begin_i2c_dirty]

theorem toUChar_byte (b : Nat) : toUChar ((b : Int) % 256) = b % 256 := by
  unfold toUChar
  omega

theorem toUChar_natCast (b : Nat) : toUChar (b : Int) = b % 256 := by
  unfold toUChar
  omega

theorem toUInt_natCast (b : Nat) (hb : b < 256) : toUInt (b : Int) = b := by
  unfold toUInt
  omega

theorem toUChar_neg_one : toUChar (-1) = 255 := by decide

theorem toUInt_byte (b : Nat) : toUInt ((b : Int) % 256) = b % 256 := by
  unfold toUInt
  omega

theorem toUInt_neg_one : toUInt (-1) = 4294967295 := by decide

theorem _begin_i2c_nack (s : Sensor) (bus : Bus) (a : Nat) (h : bus.nextAck = false) :
    _begin_i2c s bus a 1 [0x40]
      = (0, { s with _error := AddressNotFound },
          { bus with
            trace := bus.trace ++ [BusOp.probe 0x40]
            stamps := bus.stamps ++ [bus.now]
            acks := bus.acks.tail }) := by
  simp [_begin_i2c, probeCandidates, h]

theorem _begin_i2c_ack (s : Sensor) (bus : Bus) (a : Nat) (h : bus.nextAck = true) :
    _begin_i2c s bus a 1 [0x40]
      = (0x40, s, { bus with
            trace := bus.trace ++ [BusOp.probe 0x40]
            stamps := bus.stamps ++ [bus.now]
            acks := bus.acks.tail }) := by
  simp [_begin_i2c, probeCandidates, h]

theorem begin_nack (s : Sensor) (bus : Bus) (hdirty : s._dirty = true)
    (h : bus.nextAck = false) :
    begin s bus
      = ({ s with _dirty := false, _address := 0, _error := AddressNotFound },
          { bus with
            trace := bus.trace ++ [BusOp.probe 0x40]
            stamps := bus.stamps ++ [bus.now]
            acks := bus.acks.tail }) := by
  simp [begin, hdirty, _begin_i2c_nack, h]

theorem begin_ack (s : Sensor) (bus : Bus) (hdirty : s._dirty = true)
    (h : bus.nextAck = true) :
    begin s bus
      = _init { s with _dirty := false, _address := 0x40 }
          { bus with
            trace := bus.trace ++ [BusOp.probe 0x40]
            stamps := bus.stamps ++ [bus.now]
            acks := bus.acks.tail } := by
  simp [begin, hdirty, _begin_i2c_ack, h]

theorem waitLoop_frame (fuel start : Nat) (bus : Bus) :
    (waitLoop fuel start bus).trace = bus.trace ∧
    (waitLoop fuel start bus).acks = bus.acks ∧
    (waitLoop fuel start bus).replies = bus.replies ∧
    (waitLoop fuel start bus).rx = bus.rx := by
  induction fuel generalizing bus with
  | zero => simp [waitLoop]
  | succ n ih =>
    unfold waitLoop
    simp only [millis]
    split
    · have h := ih (delay bus 1)
      simpa [delay] using h
    · simp

theorem waitLoop_stamps (fuel start : Nat) (bus : Bus) :
    (waitLoop fuel start bus).stamps = bus.stamps := by
  induction fuel generalizing bus with
  | zero => simp [waitLoop]
  | succ n ih =>
    unfold waitLoop
    simp only [millis]
    split
    · have h := ih (delay bus 1)
      simpa [delay] using h
    · rfl

/-- With an empty script every `delay(1)` lasts one millisecond, and the loop is
left after at most `50` tests. -/
theorem waitLoop_exit_of_nil (start : Nat) (hs : start < 4294967296) :
    ∀ (k : Nat) (bus : Bus), bus.ticks = [] →
      50 ≤ ((millis bus).1 + 4294967296 - start) % 4294967296 + k →
      ¬ ((millis (waitLoop k start bus)).1 + 4294967296 - start) % 4294967296 < 50 := by
  intro k
  induction k with
  | zero =>
    intro bus _ h
    simp only [waitLoop]
    omega
  | succ n ih =>
    intro bus hticks h
    unfold waitLoop
    simp only []
    split
    · rename_i hlt
      apply ih (delay bus 1)
      · simp [delay, hticks]
      · simp only [millis, delay, hticks, List.headD_nil] at hlt h ⊢
        omega
    · assumption

/-- The fuel `waitFuel` is enough: the state returned by the loop of `_read`
is one in which the condition of the loop is false. -/
theorem waitLoop_exit (start : Nat) (hs : start < 4294967296) :
    ∀ (ticks : List Nat) (bus : Bus) (fuel : Nat), bus.ticks = ticks →
      ticks.length + 50 ≤ fuel →
      ¬ ((millis (waitLoop fuel start bus)).1 + 4294967296 - start) % 4294967296 < 50 := by
  intro ticks
  induction ticks with
  | nil =>
    intro bus fuel hticks hfuel
    apply waitLoop_exit_of_nil start hs fuel bus hticks
    simp only [List.length_nil] at hfuel
    omega
  | cons t ts ih =>
    intro bus fuel hticks hfuel
    cases fuel with
    | zero => simp at hfuel
    | succ f =>
      unfold waitLoop
      simp only []
      split
      · apply ih (delay bus 1) f
        · simp [delay, hticks]
        · simp only [List.length_cons] at hfuel
          omega
      · assumption

/-- The value `_read` computes from the two results of `Wire.read()`. -/
theorem _read_replied (s : Sensor) (bus : Bus) (command msb lsb : Nat) (rest : List Nat)
    (more : List (List Nat)) (hreply : bus.replies = (msb :: lsb :: rest) :: more) :
    (_read s bus command).1
      = (((msb % 256) <<< 8) % 4294967296) ||| ((lsb % 256) &&& 0xFC) := by
  have hw := waitLoop_frame
  by_cases hc : command = 0xE0 <;>
  simp [_read, Wire.beginTransmission, Wire.write, Wire.endTransmission, Wire.requestFrom,
    Wire.read, millis, hw, hreply, hc, toUInt_byte]

theorem _read_sensor (s : Sensor) (bus : Bus) (command : Nat) :
    (_read s bus command).2.1 = { s with _error := SENSOR_ERROR_OK } := by
  simp [_read]

theorem _read_replies (s : Sensor) (bus : Bus) (command : Nat) :
    (_read s bus command).2.2.replies = bus.replies.tail := by
  have hw := waitLoop_frame
  simp [_read, Wire.beginTransmission, Wire.write, Wire.endTransmission, Wire.requestFrom,
    Wire.read, millis, hw]

theorem and_252_low (l : Nat) : (l &&& 0xFC) &&& 0x03 = 0 := by
  rw [Nat.and_assoc]
  exact Nat.and_zero l

theorem and_252_mod (l : Nat) : (l &&& 0xFC) % 4 = 0 := by
  have h := Nat.and_pow_two_sub_one_eq_mod (l &&& 0xFC) 2
  have h2 := and_252_low l
  simp only [Nat.reducePow, Nat.reduceSub] at h
  omega

theorem and_252_le (l : Nat) : l &&& 0xFC ≤ 252 := Nat.and_le_right

theorem raw_eq (msb lsb : Nat) (hm : msb < 256) :
    (((msb % 256) <<< 8) % 4294967296) ||| ((lsb % 256) &&& 0xFC)
      = msb * 256 + ((lsb % 256) &&& 0xFC) := by
  have hl : (lsb % 256) &&& 0xFC < 2 ^ 8 := by
    have := and_252_le (lsb % 256)
    omega
  have h := Nat.mul_add_lt_is_or hl msb
  rw [Nat.shiftLeft_eq, Nat.mod_eq_of_lt hm, Nat.mod_eq_of_lt (by omega), Nat.mul_comm msb, ← h]

set_option maxRecDepth 100000 in
theorem and_252_of_mod (l : Nat) (hl : l < 256) (h4 : l % 4 = 0) : l &&& 0xFC = l := by
  have h : ∀ l < 256, l % 4 = 0 → l &&& 0xFC = l := by decide
  exact h l hl h4

/-- The value returned by `_read` does not depend on the fields of the object. -/
theorem _read_value_sensor (s s' : Sensor) (bus : Bus) (command : Nat) :
    (_read s bus command).1 = (_read s' bus command).1 ∧
    (_read s bus command).2.2.replies = (_read s' bus command).2.2.replies := by
  have hw := waitLoop_frame
  simp [_read, Wire.beginTransmission, Wire.write, Wire.endTransmission, Wire.requestFrom,
    Wire.read, millis, hw]

/-- The bus after `_read` depends on the object through `_address` only. -/
theorem _read_bus_of_address (s s' : Sensor) (bus : Bus) (command : Nat)
    (h : s._address = s'._address) :
    (_read s bus command).2.2 = (_read s' bus command).2.2 := by
  simp [_read, h]

theorem pre_unidentified (s : Sensor) (bus : Bus) (h : s._chip = 0) :
    pre s bus = ({ s with _error := SENSOR_ERROR_UNKNOWN_ID }, bus) := by
  simp [pre, h]

/-- What `pre()` does on an instance whose `_chip` is not zero, in terms of its
two calls of `_read`. -/
theorem pre_identified (s : Sensor) (bus : Bus) (h : s._chip ≠ 0) :
    (pre s bus).1._error = SENSOR_ERROR_OK ∧
    (pre s bus).1._temperature
      = temperatureOf ((_read s bus SI7021_CMD_TMP_NOHOLD).1 : ℚ) ∧
    (pre s bus).1._humidity
      = humidityOf ((_read s (_read s bus SI7021_CMD_TMP_NOHOLD).2.2
          SI7021_CMD_HUM_NOHOLD).1 : ℚ) := by
  have h1 := fun s' => (_read_value_sensor s' s bus SI7021_CMD_TMP_NOHOLD).1
  have h2 := fun s' b => (_read_value_sensor s' s b SI7021_CMD_HUM_NOHOLD).1
  refine ⟨?_, ?_, ?_⟩
  · simp [pre, h, _read_sensor]
  · simp [pre, h, _read_sensor]
    rw [h1]
  · simp [pre, h, _read_sensor]
    rw [h2, _read_bus_of_address { s with _error := SENSOR_ERROR_OK } s bus _ rfl]

theorem _read_of_bytes (s : Sensor) (bus : Bus) (command msb lsb : Nat) (rest : List Nat)
    (more : List (List Nat)) (hm : msb < 256) (hl : lsb < 256)
    (hreply : bus.replies = (msb :: lsb :: rest) :: more) :
    (_read s bus command).1 = msb * 256 + (lsb &&& 0xFC) := by
  rw [_read_replied s bus command msb lsb rest more hreply, raw_eq msb lsb hm,
    Nat.mod_eq_of_lt hl]

theorem roundHalfEven_of_lt (q : ℚ) (f : ℤ) (h1 : (f : ℚ) ≤ q) (h2 : q - f < 1 / 2) :
    roundHalfEven q = f := by
  have hf : ⌊q⌋ = f := by
    rw [Int.floor_eq_iff]
    constructor
    · exact h1
    · linarith
  simp only [roundHalfEven, hf]
  rw [if_pos h2]

theorem roundHalfEven_of_gt (q : ℚ) (f : ℤ) (h1 : 1 / 2 < q - f) (h2 : q < f + 1) :
    roundHalfEven q = f + 1 := by
  have hf : ⌊q⌋ = f := by
    rw [Int.floor_eq_iff]
    constructor
    · linarith
    · exact h2
  simp only [roundHalfEven, hf]
  rw [if_neg (by linarith), if_pos h1]

theorem roundHalfEven_intCast (k : ℤ) : roundHalfEven (k : ℚ) = k := by
  apply roundHalfEven_of_lt
  · exact le_refl _
  · norm_num

theorem roundHalfEven_error (q : ℚ) : |(roundHalfEven q : ℚ) - q| ≤ 1 / 2 := by
  have h1 := Int.floor_le q
  have h2 := Int.lt_floor_add_one q
  unfold roundHalfEven
  simp only []
  rw [abs_le]
  split
  · constructor <;> linarith
  · split
    · push_cast
      constructor <;> linarith
    · rename_i h3 h4
      have h5 : q - ⌊q⌋ = 1 / 2 := le_antisymm (not_lt.mp h4) (not_lt.mp h3)
      split
      · constructor <;> linarith
      · push_cast
        constructor <;> linarith

theorem log_eq_of_bounds (x : ℚ) (e : ℤ) (hlo : (2 : ℚ) ^ e ≤ |x|) (hhi : |x| < 2 ^ (e + 1)) :
    Int.log 2 |x| = e := by
  have hpos : 0 < |x| := lt_of_lt_of_le (by positivity) hlo
  have h1 : e ≤ Int.log 2 |x| := by
    rw [← Int.zpow_le_iff_le_log (by norm_num) hpos]
    simpa using hlo
  have h2 : Int.log 2 |x| < e + 1 := by
    rw [← Int.lt_zpow_iff_log_lt (by norm_num) hpos]
    simpa using hhi
  omega

theorem roundDouble_of_bounds (x : ℚ) (e : ℤ) (hlo : (2 : ℚ) ^ e ≤ |x|)
    (hhi : |x| < 2 ^ (e + 1)) :
    roundDouble x = roundHalfEven (x / 2 ^ (e - 52)) * 2 ^ (e - 52) := by
  have hpos : 0 < |x| := lt_of_lt_of_le (by positivity) hlo
  have hx : x ≠ 0 := abs_pos.mp hpos
  simp only [roundDouble, hx, if_false, log_eq_of_bounds x e hlo hhi]

theorem roundDouble_error (x : ℚ) : |roundDouble x - x| ≤ |x| / 2 ^ 53 := by
  by_cases hx : x = 0
  · simp [roundDouble, hx]
  · have hpos : 0 < |x| := abs_pos.mpr hx
    have hlo : (2 : ℚ) ^ Int.log 2 |x| ≤ |x| := by
      simpa using Int.zpow_log_le_self (b := 2) (by norm_num) hpos
    simp only [roundDouble, hx, if_false]
    have hu : (2 : ℚ) ^ (Int.log 2 |x| - 52) = 2 ^ Int.log 2 |x| / 2 ^ 52 := by
      rw [zpow_sub₀ (by norm_num)]
      norm_num
    generalize (2 : ℚ) ^ Int.log 2 |x| = p at hlo hu
    have hp : 0 < p := by
      have : (0 : ℚ) < 2 ^ (Int.log 2 |x| - 52) := by positivity
      rw [hu] at this
      have h52 : (0 : ℚ) < 2 ^ 52 := by positivity
      by_contra hneg
      push_neg at hneg
      have : p / 2 ^ 52 ≤ 0 := div_nonpos_of_nonpos_of_nonneg hneg (le_of_lt h52)
      linarith
    rw [hu]
    have hup : 0 < p / 2 ^ 52 := by positivity
    have herr := roundHalfEven_error (x / (p / 2 ^ 52))
    have hsplit : (roundHalfEven (x / (p / 2 ^ 52)) : ℚ) * (p / 2 ^ 52) - x
        = ((roundHalfEven (x / (p / 2 ^ 52)) : ℚ) - x / (p / 2 ^ 52)) * (p / 2 ^ 52) := by
      field_simp
      ring
    rw [hsplit, abs_mul, abs_of_pos hup]
    calc |(roundHalfEven (x / (p / 2 ^ 52)) : ℚ) - x / (p / 2 ^ 52)| * (p / 2 ^ 52)
        ≤ 1 / 2 * (p / 2 ^ 52) := by
          exact mul_le_mul_of_nonneg_right herr (le_of_lt hup)
      _ = p / 2 ^ 53 := by ring
      _ ≤ |x| / 2 ^ 53 := by
          apply div_le_div_of_nonneg_right hlo
          positivity

theorem roundDouble_exact (k : ℤ) (j : ℕ) (hk : |k| < 2 ^ 53) :
    roundDouble ((k : ℚ) / 2 ^ j) = (k : ℚ) / 2 ^ j := by
  by_cases hk0 : k = 0
  · simp [roundDouble, hk0]
  · have hJ : (0 : ℚ) < 2 ^ j := by positivity
    have hkq : (k : ℚ) ≠ 0 := by exact_mod_cast hk0
    have hx : (k : ℚ) / 2 ^ j ≠ 0 := div_ne_zero hkq (ne_of_gt hJ)
    have hpos : 0 < |(k : ℚ) / 2 ^ j| := abs_pos.mpr hx
    have hlo : (2 : ℚ) ^ Int.log 2 |(k : ℚ) / 2 ^ j| ≤ |(k : ℚ) / 2 ^ j| := by
      simpa using Int.zpow_log_le_self (b := 2) (by norm_num) hpos
    have habs : |(k : ℚ) / 2 ^ j| < 2 ^ ((53 : ℤ) - j) := by
      rw [abs_div, abs_of_pos hJ, zpow_sub₀ (by norm_num), zpow_natCast]
      apply div_lt_div_of_pos_right _ hJ
      exact_mod_cast hk
    have hexp : Int.log 2 |(k : ℚ) / 2 ^ j| < (53 : ℤ) - j := by
      have := lt_of_le_of_lt hlo habs
      rwa [zpow_lt_zpow_iff_right₀ (by norm_num)] at this
    simp only [roundDouble, hx, if_false]
    generalize Int.log 2 |(k : ℚ) / 2 ^ j| = e at hlo hexp ⊢
    obtain ⟨n, hn⟩ : ∃ n : ℕ, (n : ℤ) = 52 - j - e := ⟨(52 - j - e).toNat, by omega⟩
    have key : (2 : ℚ) ^ (e - 52) * 2 ^ n * 2 ^ j = 1 := by
      rw [← zpow_natCast (2 : ℚ) n, ← zpow_natCast (2 : ℚ) j, ← zpow_add₀ (by norm_num),
        ← zpow_add₀ (by norm_num)]
      have : e - 52 + (n : ℤ) + (j : ℤ) = 0 := by omega
      rw [this, zpow_zero]
    have hu : (0 : ℚ) < 2 ^ (e - 52) := by positivity
    have hscaled : (k : ℚ) / 2 ^ j / 2 ^ (e - 52) = ((k * 2 ^ n : ℤ) : ℚ) := by
      push_cast
      rw [div_div, div_eq_iff (by positivity)]
      linear_combination (-(k : ℚ)) * key
    rw [hscaled, roundHalfEven_intCast]
    push_cast
    rw [eq_div_iff (ne_of_gt hJ)]
    linear_combination (k : ℚ) * key

theorem roundDouble_natCast (n : ℕ) (hn : n < 2 ^ 53) : roundDouble (n : ℚ) = n := by
  have h := roundDouble_exact (n : ℤ) 0 (by
    rw [abs_of_nonneg (by positivity)]
    exact_mod_cast hn)
  simpa using h

theorem roundDouble_175_72 : roundDouble 175.72 = 6182597863449559 / 35184372088832 := by
  rw [roundDouble_of_bounds 175.72 7 (by norm_num [abs_of_pos]) (by norm_num [abs_of_pos])]
  rw [roundHalfEven_of_lt _ 6182597863449559 (by norm_num) (by norm_num)]
  norm_num

theorem roundDouble_46_85 : roundDouble 46.85 = 6593551329447117 / 140737488355328 := by
  rw [roundDouble_of_bounds 46.85 5 (by norm_num [abs_of_pos]) (by norm_num [abs_of_pos])]
  rw [roundHalfEven_of_gt _ 6593551329447116 (by norm_num) (by norm_num)]
  norm_num

theorem temperatureOf_24576 :
    temperatureOf 24576 = 2680345465727221 / 140737488355328 := by
  have h1 : roundDouble (6182597863449559 / 35184372088832 * 24576)
      = 4636948397587169 / 1073741824 := by
    rw [roundDouble_of_bounds _ 22 (by norm_num [abs_of_pos]) (by norm_num [abs_of_pos])]
    rw [roundHalfEven_of_lt _ 4636948397587169 (by norm_num) (by norm_num)]
    norm_num
  have h2 : roundDouble (4636948397587169 / 1073741824 / 65536)
      = 4636948397587169 / 70368744177664 := by
    rw [roundDouble_of_bounds _ 6 (by norm_num [abs_of_pos]) (by norm_num [abs_of_pos])]
    rw [roundHalfEven_of_lt _ 4636948397587169 (by norm_num) (by norm_num)]
    norm_num
  have h3 : roundDouble (4636948397587169 / 70368744177664
      - 6593551329447117 / 140737488355328) = 2680345465727221 / 140737488355328 := by
    rw [roundDouble_of_bounds _ 4 (by norm_num [abs_of_pos]) (by norm_num [abs_of_pos])]
    rw [roundHalfEven_of_lt _ 5360690931454442 (by norm_num) (by norm_num)]
    norm_num
  rw [temperatureOf, roundDouble_175_72, roundDouble_46_85, h1, h2, h3]

theorem temperatureOf_4294967292 :
    temperatureOf 4294967292 = 6182572705289339 / 536870912 := by
  have h1 : roundDouble (6182597863449559 / 35184372088832 * 4294967292)
      = 3091298928845783 / 4096 := by
    rw [roundDouble_of_bounds _ 39 (by norm_num [abs_of_pos]) (by norm_num [abs_of_pos])]
    rw [roundHalfEven_of_lt _ 6182597857691566 (by norm_num) (by norm_num)]
    norm_num
  have h2 : roundDouble (3091298928845783 / 4096 / 65536)
      = 3091298928845783 / 268435456 := by
    rw [roundDouble_of_bounds _ 23 (by norm_num [abs_of_pos]) (by norm_num [abs_of_pos])]
    rw [roundHalfEven_of_lt _ 6182597857691566 (by norm_num) (by norm_num)]
    norm_num
  have h3 : roundDouble (3091298928845783 / 268435456
      - 6593551329447117 / 140737488355328) = 6182572705289339 / 536870912 := by
    rw [roundDouble_of_bounds _ 23 (by norm_num [abs_of_pos]) (by norm_num [abs_of_pos])]
    rw [roundHalfEven_of_gt _ 6182572705289338 (by norm_num) (by norm_num)]
    norm_num
  rw [temperatureOf, roundDouble_175_72, roundDouble_46_85, h1, h2, h3]

theorem temperatureOf_error (n : ℕ) (hn : n ≤ 65535) :
    |temperatureOf (n : ℚ) - (175.72 * (n : ℚ) / 65536 - 46.85)| ≤ 1 / 2 ^ 43 := by
  have hn0 : (0 : ℚ) ≤ n := by positivity
  have hn1 : (n : ℚ) ≤ 65535 := by exact_mod_cast hn
  rw [temperatureOf, roundDouble_175_72, roundDouble_46_85]
  have e1 := roundDouble_error (6182597863449559 / 35184372088832 * (n : ℚ))
  have hp : |6182597863449559 / 35184372088832 * (n : ℚ)|
      = 6182597863449559 / 35184372088832 * (n : ℚ) := abs_of_nonneg (by positivity)
  rw [hp] at e1
  generalize roundDouble (6182597863449559 / 35184372088832 * (n : ℚ)) = t1 at e1 ⊢
  rw [abs_le] at e1
  have e2 := roundDouble_error (t1 / 65536)
  have ht1 : |t1 / 65536| ≤ 177 := by
    rw [abs_le]
    constructor <;> linarith [e1.1, e1.2]
  have e2' := le_trans e2 (div_le_div_of_nonneg_right ht1 (by positivity))
  generalize roundDouble (t1 / 65536) = t2 at e2' ⊢
  rw [abs_le] at e2'
  have e3 := roundDouble_error (t2 - 6593551329447117 / 140737488355328)
  have ht2 : |t2 - 6593551329447117 / 140737488355328| ≤ 224 := by
    rw [abs_le]
    constructor <;> linarith [e1.1, e1.2, e2'.1, e2'.2]
  have e3' := le_trans e3 (div_le_div_of_nonneg_right ht2 (by positivity))
  generalize roundDouble (t2 - 6593551329447117 / 140737488355328) = t3 at e3' ⊢
  rw [abs_le] at e3' ⊢
  constructor <;> linarith [e1.1, e1.2, e2'.1, e2'.2, e3'.1, e3'.2]

theorem temperatureOf_lt (n m : ℕ) (h : n < m) (hm : m ≤ 65535) :
    temperatureOf (n : ℚ) < temperatureOf (m : ℚ) := by
  have en := temperatureOf_error n (by omega)
  have em := temperatureOf_error m hm
  rw [abs_le] at en em
  have hnm : (n : ℚ) + 1 ≤ m := by exact_mod_cast h
  norm_num at en em
  linarith [en.1, en.2, em.1, em.2]

theorem humidityOf_clamp (n : ℕ) (hn : n < 4294967296) :
    humidityOf (n : ℚ) = max 0 (min 100 (125.0 * (n : ℚ) / 65536 - 6)) := by
  have h1 : roundDouble (125.0 * (n : ℚ)) = 125.0 * (n : ℚ) := by
    have h := roundDouble_natCast (125 * n) (by omega)
    push_cast at h
    norm_num at h ⊢
    exact h
  have h2 : roundDouble (125.0 * (n : ℚ) / 65536) = 125.0 * (n : ℚ) / 65536 := by
    have h := roundDouble_exact ((125 * n : ℕ) : ℤ) 16 (by
      rw [abs_of_nonneg (by positivity)]
      norm_cast
      omega)
    push_cast at h
    norm_num at h ⊢
    exact h
  have h3 : roundDouble (125.0 * (n : ℚ) / 65536 - 6) = 125.0 * (n : ℚ) / 65536 - 6 := by
    have h := roundDouble_exact (125 * (n : ℤ) - 393216) 16 (by
      rw [abs_lt]
      constructor <;> omega)
    have hrw : (((125 * (n : ℤ) - 393216 : ℤ) : ℚ)) / 2 ^ 16 = 125.0 * (n : ℚ) / 65536 - 6 := by
      push_cast
      norm_num
      ring
    rw [hrw] at h
    exact h
  unfold humidityOf constrain
  simp only [h1, h2, h3]
  split
  · rename_i h
    rw [max_eq_left]
    exact le_trans (min_le_right _ _) (le_of_lt h)
  · rename_i h
    split
    · rename_i h2
      rw [min_eq_left (le_of_lt h2), max_eq_right (by norm_num)]
    · rename_i h2
      rw [min_eq_right (not_lt.mp h2), max_eq_right (not_lt.mp h)]

theorem humidityOf_range (x : ℚ) : 0 ≤ humidityOf x ∧ humidityOf x ≤ 100 := by
  unfold humidityOf constrain
  simp only []
  split
  · norm_num
  · rename_i h
    split
    · norm_num
    · rename_i h2
      exact ⟨not_lt.mp h, not_lt.mp h2⟩

theorem humidityOf_32768 : humidityOf 32768 = 113 / 2 := by
  have h := humidityOf_clamp 32768 (by norm_num)
  rw [min_eq_right (by norm_num), max_eq_right (by norm_num)] at h
  norm_num at h ⊢
  exact h

theorem humidityOf_4294967292 : humidityOf 4294967292 = 100 := by
  have h := humidityOf_clamp 4294967292 (by norm_num)
  rw [min_eq_left (by norm_num), max_eq_right (by norm_num)] at h
  norm_num at h ⊢
  exact h

theorem _read_trace (s : Sensor) (bus : Bus) (command : Nat) :
    (_read s bus command).2.2.trace = bus.trace ++
      [BusOp.beginTransmission s._address, BusOp.write command, BusOp.endTransmission,
        BusOp.requestFrom s._address (if command = 0xE0 then 2 else 3),
        BusOp.read, BusOp.read] := by
  have hw := waitLoop_frame
  simp [_read, Wire.beginTransmission, Wire.write, Wire.endTransmission, Wire.requestFrom,
    Wire.read, millis, hw]

/-- The fields `pre()` leaves alone. -/
theorem pre_frame (s : Sensor) (bus : Bus) :
    (pre s bus).1._dirty = s._dirty ∧
    (pre s bus).1._address = s._address ∧
    (pre s bus).1._count = s._count ∧
    (pre s bus).1._chip = s._chip := by
  by_cases h : s._chip = 0
  · rw [pre_unidentified s bus h]
    exact ⟨rfl, rfl, rfl, rfl⟩
  · simp [pre, h, _read_sensor]

theorem pre_trace (s : Sensor) (bus : Bus) (h : s._chip ≠ 0) :
    (pre s bus).2.trace = bus.trace ++
      [BusOp.beginTransmission s._address, BusOp.write 0xF3, BusOp.endTransmission,
        BusOp.requestFrom s._address 3, BusOp.read, BusOp.read,
        BusOp.beginTransmission s._address, BusOp.write 0xF5, BusOp.endTransmission,
        BusOp.requestFrom s._address 3, BusOp.read, BusOp.read] := by
  simp [pre, h, _read_sensor, _read_trace, SI7021_CMD_TMP_NOHOLD, SI7021_CMD_HUM_NOHOLD]

/-- A call made on an initialized instance leaves `_address` alone and the
instance initialized. -/
theorem call_of_not_dirty (c : Call) (st : Sensor × Bus) (h : st.1._dirty = false) :
    (call c st).1._address = st.1._address ∧ (call c st).1._dirty = false := by
  cases c with
  | setup =>
    simp only [call]
    rw [begin_of_not_dirty st.1 st.2 h]
    exact ⟨rfl, h⟩
  | acquire =>
    simp only [call]
    have hf := pre_frame st.1 st.2
    exact ⟨hf.2.1, hf.1.trans h⟩
  | channel_type index =>
    simp only [call, type]
    split
    · exact ⟨rfl, h⟩
    · split <;> exact ⟨rfl, h⟩
  | channel_value index =>
    simp only [call, value]
    split
    · exact ⟨rfl, h⟩
    · split <;> exact ⟨rfl, h⟩
  | describe => exact ⟨rfl, h⟩
  | channel_label index => exact ⟨rfl, h⟩

/-- A call keeps the invariant "a non-zero `_address` belongs to an initialized
instance". -/
theorem call_invariant (c : Call) (st : Sensor × Bus)
    (h : st.1._address ≠ 0 → st.1._dirty = false) :
    (call c st).1._address ≠ 0 → (call c st).1._dirty = false := by
  cases hd : st.1._dirty with
  | false =>
    intro _
    exact (call_of_not_dirty c st hd).2
  | true =>
    cases c with
    | setup =>
      intro _
      exact begin_dirty st.1 st.2
    | acquire =>
      intro hne
      have hf := pre_frame st.1 st.2
      simp only [call] at hne ⊢
      rw [hf.2.1] at hne
      exact absurd (h hne) (by simp [hd])
    | channel_type index =>
      intro hne
      have ha : (call (Call.channel_type index) st).1._address = st.1._address := by
        simp only [call, type]
        split
        · rfl
        · split <;> rfl
      rw [ha] at hne
      exact absurd (h hne) (by simp [hd])
    | channel_value index =>
      intro hne
      have ha : (call (Call.channel_value index) st).1._address = st.1._address := by
        simp only [call, value]
        split
        · rfl
        · split <;> rfl
      rw [ha] at hne
      exact absurd (h hne) (by simp [hd])
    | describe =>
      intro hne
      exact absurd (h hne) (by simp [hd])
    | channel_label index =>
      intro hne
      exact absurd (h hne) (by simp [hd])

theorem run_invariant (cs : List Call) :
    ∀ st : Sensor × Bus, (st.1._address ≠ 0 → st.1._dirty = false) →
      (run cs st).1._address ≠ 0 → (run cs st).1._dirty = false := by
  induction cs with
  | nil =>
    intro st h
    exact h
  | cons c cs ih =>
    intro st h
    exact ih (call c st) (call_invariant c st h)

theorem run_of_not_dirty (cs : List Call) :
    ∀ st : Sensor × Bus, st.1._dirty = false → (run cs st).1._address = st.1._address := by
  induction cs with
  | nil =>
    intro st _
    rfl
  | cons c cs ih =>
    intro st h
    have hc := call_of_not_dirty c st h
    exact (ih (call c st) hc.2).trans hc.1

theorem fmt02X_two (a : Nat) (h : a < 256) :
    fmt02X a = [hexUpper (a / 16), hexUpper (a % 16)] := by
  interval_cases a <;> rfl

theorem description_si7021 (s : Sensor) (bus : Bus) (hchip : s._chip = 0x15)
    (ha : s._address < 256) :
    (description s bus).1 = String.mk ("SI7021 @ I2C (0x".toList ++
      [hexUpper (s._address / 16), hexUpper (s._address % 16)] ++ ")".toList) := by
  simp only [description, snprintf, hchip, SI7021_CHIP_SI7021, if_true, fmt02X_two _ ha]
  rfl

theorem description_htu21d (s : Sensor) (bus : Bus) (hchip : s._chip ≠ 0x15)
    (ha : s._address < 256) :
    (description s bus).1 = String.mk ("HTU21D @ I2C (0x".toList ++
      [hexUpper (s._address / 16), hexUpper (s._address % 16)] ++ ")".toList) := by
  simp only [description, snprintf, hchip, SI7021_CHIP_SI7021, if_false, fmt02X_two _ ha]
  rfl

theorem waitLoop_now_le (fuel start : Nat) (bus : Bus) :
    bus.now ≤ (waitLoop fuel start bus).now := by
  induction fuel generalizing bus with
  | zero => simp [waitLoop]
  | succ n ih =>
    unfold waitLoop
    simp only [millis]
    split
    · have h := ih (delay bus 1)
      have hd : bus.now ≤ (delay bus 1).now := by
        simp only [delay]
        omega
      exact le_trans hd h
    · exact le_refl _

/-- What `begin()` does on an uninitialized instance whose probe is
acknowledged and whose identification byte is one of the two known values. -/
theorem begin_known (s : Sensor) (bus : Bus) (b : Nat) (rest : List Nat)
    (more : List (List Nat)) (hdirty : s._dirty = true) (hack : bus.nextAck = true)
    (hb : b = 0x15 ∨ b = 0x32) (hreply : bus.replies = (b :: rest) :: more) :
    (begin s bus).1 = { s with _dirty := false, _address := 0x40, _chip := b, _count := 2 } ∧
    (begin s bus).2.replies = more := by
  have h21 : toUChar 21 = 21 := by decide
  have h50 : toUChar 50 = 50 := by decide
  rw [begin_ack s bus hdirty hack]
  rcases hb with hb | hb <;> subst hb <;>
  simp [_init, Wire.beginTransmission, Wire.write, Wire.endTransmission, Wire.requestFrom,
    Wire.read, hreply, h21, h50, SI7021_CHIP_SI7021, SI7021_CHIP_HTU21D]

/-! ## The claims -/

/-- C1: calling `begin()` twice in sequence leaves the object and the bus
(its trace included) exactly as calling it once does: the second call changes
no field and performs no bus operation. -/
theorem begin_idempotent (s : Sensor) (bus : Bus) :
    begin (begin s bus).1 (begin s bus).2 = begin s bus ∧
    (begin (begin s bus).1 (begin s bus).2).2.trace = (begin s bus).2.trace := by
  have h := begin_of_not_dirty (begin s bus).1 (begin s bus).2 (begin_dirty s bus)
  exact ⟨h, by rw [h]⟩

/-- C2 (as stated, refuted): on a fresh instance whose only presence check is
not acknowledged, the first `begin()` performs the probe and the second
`begin()` performs nothing: the trace still holds the single probe and the
acknowledgement scripted for a second probe has not been consumed. -/
theorem begin_retry_counterexample :
    fresh._dirty = true ∧
    (idle [false, true] [[0x15]]).nextAck = false ∧
    (begin fresh (idle [false, true] [[0x15]])).2.trace = [BusOp.probe 0x40] ∧
    (begin (begin fresh (idle [false, true] [[0x15]])).1
      (begin fresh (idle [false, true] [[0x15]])).2).2.trace = [BusOp.probe 0x40] ∧
    (begin (begin fresh (idle [false, true] [[0x15]])).1
      (begin fresh (idle [false, true] [[0x15]])).2).2.acks = [true] ∧
    (begin (begin fresh (idle [false, true] [[0x15]])).1
      (begin fresh (idle [false, true] [[0x15]])).2).1._address = 0 := by
  decide

/-- C2 (amended): on an uninitialized instance, when the candidate address does
not acknowledge the probe, `begin()` leaves `_address = 0`, performs the probe
and nothing else on the bus (no identification sequence), and marks the
instance initialized: the next `begin()` changes nothing and performs no bus
operation, so the probe is not retried. -/
theorem begin_probe_failure (s : Sensor) (bus : Bus)
    (hdirty : s._dirty = true) (hack : bus.nextAck = false) :
    (begin s bus).1._address = 0 ∧
    (begin s bus).2.trace = bus.trace ++ [BusOp.probe 0x40] ∧
    (begin s bus).1._dirty = false ∧
    begin (begin s bus).1 (begin s bus).2 = begin s bus := by
  refine ⟨?_, ?_, begin_dirty s bus, begin_of_not_dirty _ _ (begin_dirty s bus)⟩
  · rw [begin_nack s bus hdirty hack]
  · rw [begin_nack s bus hdirty hack]

theorem begin_probe_failure_witness :
    (begin fresh (idle [false, true] [[0x15]])).1._address = 0 ∧
    (begin fresh (idle [false, true] [[0x15]])).2.trace
      = (idle [false, true] [[0x15]]).trace ++ [BusOp.probe 0x40] ∧
    (begin fresh (idle [false, true] [[0x15]])).1._dirty = false ∧
    begin (begin fresh (idle [false, true] [[0x15]])).1
        (begin fresh (idle [false, true] [[0x15]])).2
      = begin fresh (idle [false, true] [[0x15]]) :=
  begin_probe_failure fresh (idle [false, true] [[0x15]]) rfl rfl

/-- C3: on an uninitialized instance whose probe is acknowledged, with `b` the
identification byte delivered by the device, `begin()` stores `b` in `_chip`;
`_count` is 2 exactly when `b` is 0x15 or 0x32; otherwise `_count` is 0,
`_error` is the unknown-identity error and the last bus operation is the
release of the address lock.  In both cases the instance is marked initialized
and a later `begin()` changes nothing and performs no bus operation. -/
theorem begin_identification (s : Sensor) (bus : Bus) (b : Nat) (rest : List Nat)
    (more : List (List Nat)) (hdirty : s._dirty = true) (hack : bus.nextAck = true)
    (hb : b < 256) (hreply : bus.replies = (b :: rest) :: more) :
    (begin s bus).1._chip = b ∧
    ((begin s bus).1._count = 2 ↔ (b = 0x15 ∨ b = 0x32)) ∧
    (¬ (b = 0x15 ∨ b = 0x32) →
      (begin s bus).1._count = 0 ∧
      (begin s bus).1._error = SENSOR_ERROR_UNKNOWN_ID ∧
      (begin s bus).2.trace = bus.trace ++
        [BusOp.probe 0x40, BusOp.beginTransmission 0x40, BusOp.write 0xFC, BusOp.write 0xC9,
          BusOp.endTransmission, BusOp.requestFrom 0x40 1, BusOp.read, BusOp.releaseLock 0x40]) ∧
    (begin s bus).1._dirty = false ∧
    begin (begin s bus).1 (begin s bus).2 = begin s bus := by
  have hmod : b % 256 = b := Nat.mod_eq_of_lt hb
  refine ⟨?_, ?_, ?_, begin_dirty s bus, begin_of_not_dirty _ _ (begin_dirty s bus)⟩
  · rw [begin_ack s bus hdirty hack]
    simp [_init, Wire.beginTransmission, Wire.write, Wire.endTransmission, Wire.requestFrom,
      Wire.read, hreply, toUChar_byte, toUChar_natCast, hmod]
    split <;> simp
  · rw [begin_ack s bus hdirty hack]
    simp [_init, Wire.beginTransmission, Wire.write, Wire.endTransmission, Wire.requestFrom,
      Wire.read, hreply, toUChar_byte, toUChar_natCast, hmod, SI7021_CHIP_SI7021, SI7021_CHIP_HTU21D]
    split
    · simp_all
    · simp_all
      omega
  · intro hne
    rw [begin_ack s bus hdirty hack]
    simp [_init, Wire.beginTransmission, Wire.write, Wire.endTransmission, Wire.requestFrom,
      Wire.read, hreply, toUChar_byte, toUChar_natCast, hmod, SI7021_CHIP_SI7021, SI7021_CHIP_HTU21D,
      i2cReleaseLock]
    split <;> simp_all

theorem begin_identification_witness :
    (begin fresh (idle [true] [[0x32]])).1._count = 2 :=
  (begin_identification fresh (idle [true] [[0x32]]) 0x32 [] [] rfl rfl (by decide) rfl).2.1.mpr
    (Or.inr rfl)

/-- C4 (evaluation at the failing input): after a `begin()` in which the device
answered the identification with `0xFF`, the instance has `_count = 0` and the
unknown-identity error, but `_chip` holds `0xFF`, which the gate `_chip == 0`
of `pre()` lets through: the following `pre()` ends with `_error` OK, issues
both measurement commands on the bus and overwrites `_temperature` and
`_humidity`. -/
theorem pre_after_unknown_identity :
    misidentified.1._chip = 0xFF ∧
    misidentified.1._count = 0 ∧
    misidentified.1._error = SENSOR_ERROR_UNKNOWN_ID ∧
    (pre misidentified.1 misidentified.2).1._error = SENSOR_ERROR_OK ∧
    (pre misidentified.1 misidentified.2).2.trace = misidentified.2.trace ++
      [BusOp.beginTransmission 0x40, BusOp.write 0xF3, BusOp.endTransmission,
        BusOp.requestFrom 0x40 3, BusOp.read, BusOp.read,
        BusOp.beginTransmission 0x40, BusOp.write 0xF5, BusOp.endTransmission,
        BusOp.requestFrom 0x40 3, BusOp.read, BusOp.read] ∧
    misidentified.1._temperature = 0 ∧
    (pre misidentified.1 misidentified.2).1._temperature
      = 2680345465727221 / 140737488355328 ∧
    misidentified.1._humidity = 0 ∧
    (pre misidentified.1 misidentified.2).1._humidity = 113 / 2 := by
  have hchip : misidentified.1._chip ≠ 0 := by decide
  have hid := pre_identified misidentified.1 misidentified.2 hchip
  have h1 : (_read misidentified.1 misidentified.2 SI7021_CMD_TMP_NOHOLD).1 = 24576 := by decide
  have h2 : (_read misidentified.1
      (_read misidentified.1 misidentified.2 SI7021_CMD_TMP_NOHOLD).2.2
      SI7021_CMD_HUM_NOHOLD).1 = 32768 := by decide
  refine ⟨by decide, by decide, by decide, by decide, by decide, rfl, ?_, rfl, ?_⟩
  · rw [hid.2.1, h1]
    simpa using temperatureOf_24576
  · rw [hid.2.2, h2]
    simpa using humidityOf_32768

/-- C5 (as stated, refuted): in the scenario `identified` the temperature read
delivers the 16-bit value 0x6000 = 24576, whose two low bits are zero; the
temperature `pre()` stores is the `double` 2680345465727221 / 2^47, which is
not the rational `175.72 * 24576 / 65536 - 46.85`. -/
theorem pre_temperature_counterexample :
    identified.1._chip ≠ 0 ∧
    (24576 : Nat) < 65536 ∧
    (24576 : Nat) % 4 = 0 ∧
    identified.2.replies = (24576 / 256 :: 24576 % 256 :: [0x5A]) :: [[0x80, 0x02, 0x11]] ∧
    (pre identified.1 identified.2).1._temperature = 2680345465727221 / 140737488355328 ∧
    (pre identified.1 identified.2).1._temperature
      ≠ 175.72 * ((24576 : Nat) : ℚ) / 65536 - 46.85 := by
  have hchip : identified.1._chip ≠ 0 := by decide
  have h1 : (_read identified.1 identified.2 SI7021_CMD_TMP_NOHOLD).1 = 24576 := by decide
  have htemp : (pre identified.1 identified.2).1._temperature
      = 2680345465727221 / 140737488355328 := by
    rw [(pre_identified identified.1 identified.2 hchip).2.1, h1]
    simpa using temperatureOf_24576
  refine ⟨hchip, by decide, by decide, by decide, htemp, ?_⟩
  rw [htemp]
  norm_num

/-- C5 (amended): on an instance that passes the gate of `pre()`, when the
temperature read delivers the 16-bit value `v` whose two low bits are zero
(high byte first), `pre()` stores `(175.72 * v / 65536) - 46.85` evaluated in
`double` (the two literals and each of the three operations rounded to
nearest); the stored value differs from the exact rational
`175.72 * v / 65536 - 46.85` by at most `2^-43`, and it is strictly increasing
in `v`, as is the conversion on every raw value up to 65535. -/
theorem pre_temperature (s : Sensor) (bus : Bus) (v : Nat) (rest : List Nat)
    (more : List (List Nat)) (hchip : s._chip ≠ 0) (hv : v < 65536) (hlow : v % 4 = 0)
    (hreply : bus.replies = (v / 256 :: v % 256 :: rest) :: more) :
    (pre s bus).1._temperature
      = roundDouble (roundDouble (roundDouble (roundDouble 175.72 * (v : ℚ)) / 65536)
          - roundDouble 46.85) ∧
    |(pre s bus).1._temperature - (175.72 * (v : ℚ) / 65536 - 46.85)| ≤ 1 / 2 ^ 43 ∧
    (∀ (s' : Sensor) (bus' : Bus) (w : Nat) (rest' : List Nat) (more' : List (List Nat)),
      s'._chip ≠ 0 → w < 65536 → w % 4 = 0 →
      bus'.replies = (w / 256 :: w % 256 :: rest') :: more' → v < w →
      (pre s bus).1._temperature < (pre s' bus').1._temperature) ∧
    (∀ n m : Nat, n < m → m ≤ 65535 → temperatureOf (n : ℚ) < temperatureOf (m : ℚ)) := by
  have key : ∀ (s : Sensor) (bus : Bus) (v : Nat) (rest : List Nat) (more : List (List Nat)),
      s._chip ≠ 0 → v < 65536 → v % 4 = 0 →
      bus.replies = (v / 256 :: v % 256 :: rest) :: more →
      (pre s bus).1._temperature = temperatureOf (v : ℚ) := by
    intro s bus v rest more hchip hv hlow hreply
    have hraw := _read_of_bytes s bus SI7021_CMD_TMP_NOHOLD (v / 256) (v % 256) rest more
      (by omega) (by omega) hreply
    rw [and_252_of_mod (v % 256) (by omega) (by omega)] at hraw
    rw [(pre_identified s bus hchip).2.1, hraw, Nat.div_add_mod' v 256]
  refine ⟨?_, ?_, ?_, temperatureOf_lt⟩
  · rw [key s bus v rest more hchip hv hlow hreply]
    rfl
  · rw [key s bus v rest more hchip hv hlow hreply]
    exact temperatureOf_error v (by omega)
  · intro s' bus' w rest' more' hchip' hw hlow' hreply' hvw
    rw [key s bus v rest more hchip hv hlow hreply, key s' bus' w rest' more' hchip' hw hlow' hreply']
    exact temperatureOf_lt v w hvw (by omega)

theorem pre_temperature_witness :
    |(pre identified.1 identified.2).1._temperature
      - (175.72 * ((24576 : Nat) : ℚ) / 65536 - 46.85)| ≤ 1 / 2 ^ 43 :=
  (pre_temperature identified.1 identified.2 24576 [0x5A] [[0x80, 0x02, 0x11]]
    (by decide) (by decide) (by decide) (by decide)).2.1

/-- C6: on an instance that passes the gate of `pre()`, when the humidity read
delivers the bytes `msb`, `lsb`, so that the raw value is
`msb * 256 + (lsb AND 0xFC)`, `pre()` stores the conversion of the raw value
clamped to `[0, 100]`, which lies in `[0, 100]`; and for every raw value `v` in
`[0, 65535]` the conversion applied by `pre()` is
`clamp(125.0 * v / 65536 - 6, 0, 100)`, in `[0, 100]`. -/
theorem pre_humidity (s : Sensor) (bus : Bus) (msb lsb : Nat) (first rest : List Nat)
    (more : List (List Nat)) (hchip : s._chip ≠ 0) (hm : msb < 256) (hl : lsb < 256)
    (hreply : bus.replies = first :: (msb :: lsb :: rest) :: more) :
    (pre s bus).1._humidity
      = max 0 (min 100 (125.0 * ((msb * 256 + (lsb &&& 0xFC) : Nat) : ℚ) / 65536 - 6)) ∧
    0 ≤ (pre s bus).1._humidity ∧ (pre s bus).1._humidity ≤ 100 ∧
    (∀ v : Nat, v ≤ 65535 →
      humidityOf (v : ℚ) = max 0 (min 100 (125.0 * (v : ℚ) / 65536 - 6)) ∧
      0 ≤ humidityOf (v : ℚ) ∧ humidityOf (v : ℚ) ≤ 100) := by
  have hsecond : (_read s bus SI7021_CMD_TMP_NOHOLD).2.2.replies
      = (msb :: lsb :: rest) :: more := by
    rw [_read_replies, hreply]
    rfl
  have hraw := _read_of_bytes s (_read s bus SI7021_CMD_TMP_NOHOLD).2.2 SI7021_CMD_HUM_NOHOLD
    msb lsb rest more hm hl hsecond
  have hhum := (pre_identified s bus hchip).2.2
  rw [hraw] at hhum
  have hle := and_252_le lsb
  refine ⟨?_, ?_, ?_, ?_⟩
  · rw [hhum, humidityOf_clamp _ (by omega)]
  · rw [hhum]
    exact (humidityOf_range _).1
  · rw [hhum]
    exact (humidityOf_range _).2
  · intro v hv
    exact ⟨humidityOf_clamp v (by omega), humidityOf_range _⟩

theorem pre_humidity_witness :
    (pre identified.1 identified.2).1._humidity
      = max 0 (min 100 (125.0 * ((0x80 * 256 + (0x02 &&& 0xFC) : Nat) : ℚ) / 65536 - 6)) :=
  (pre_humidity identified.1 identified.2 0x80 0x02 [0x60, 0x00, 0x5A] [0x11] []
    (by decide) (by decide) (by decide) (by decide)).1

/-- C7: when the device delivers the bytes `msb`, `lsb` (each in 0..255) to the
read request of `_read`, `_read` returns `msb * 256 + (lsb AND 0xFC)`; the
masked low byte has its two low bits clear, and the result is a multiple of 4
in `[0, 65532]`. -/
theorem _read_value (s : Sensor) (bus : Bus) (command msb lsb : Nat) (rest : List Nat)
    (more : List (List Nat)) (hm : msb < 256) (hl : lsb < 256)
    (hreply : bus.replies = (msb :: lsb :: rest) :: more) :
    (_read s bus command).1 = msb * 256 + (lsb &&& 0xFC) ∧
    (lsb &&& 0xFC) &&& 0x03 = 0 ∧
    (_read s bus command).1 % 4 = 0 ∧
    (_read s bus command).1 ≤ 65532 := by
  have hv : (_read s bus command).1 = msb * 256 + (lsb &&& 0xFC) := by
    rw [_read_replied s bus command msb lsb rest more hreply, raw_eq msb lsb hm,
      Nat.mod_eq_of_lt hl]
  have h4 := and_252_mod lsb
  have hle := and_252_le lsb
  refine ⟨hv, and_252_low lsb, ?_, ?_⟩ <;> omega

theorem _read_value_witness :
    (_read fresh (idle [] [[0x60, 0x03, 0x5A]]) 0xF3).1 = 0x60 * 256 + (0x03 &&& 0xFC) ∧
    (0x03 &&& 0xFC) &&& 0x03 = 0 ∧
    (_read fresh (idle [] [[0x60, 0x03, 0x5A]]) 0xF3).1 % 4 = 0 ∧
    (_read fresh (idle [] [[0x60, 0x03, 0x5A]]) 0xF3).1 ≤ 65532 :=
  _read_value fresh (idle [] [[0x60, 0x03, 0x5A]]) 0xF3 0x60 0x03 [0x5A] []
    (by decide) (by decide) rfl

/-- C8 (evaluation at the failing input): an identified instance holds the
readings of a successful acquisition; in the next `pre()` the device delivers
no byte to either read request.  `pre()` does not abort: it ends with `_error`
OK and has overwritten both `_temperature` and `_humidity` with values decoded
from the two `-1` results of `Wire.read()`. -/
theorem pre_without_data :
    acquired.1._chip = 0x15 ∧
    acquired.1._count = 2 ∧
    acquired.2.replies = [] ∧
    acquired.1._temperature = 2680345465727221 / 140737488355328 ∧
    acquired.1._humidity = 113 / 2 ∧
    (_read acquired.1 acquired.2 SI7021_CMD_TMP_NOHOLD).1 = 4294967292 ∧
    starved.1._error = SENSOR_ERROR_OK ∧
    starved.1._temperature = 6182572705289339 / 536870912 ∧
    starved.1._humidity = 100 := by
  have hchip0 : identified.1._chip ≠ 0 := by decide
  have hid0 := pre_identified identified.1 identified.2 hchip0
  have h01 : (_read identified.1 identified.2 SI7021_CMD_TMP_NOHOLD).1 = 24576 := by decide
  have h02 : (_read identified.1
      (_read identified.1 identified.2 SI7021_CMD_TMP_NOHOLD).2.2
      SI7021_CMD_HUM_NOHOLD).1 = 32768 := by decide
  have hchip : acquired.1._chip ≠ 0 := by decide
  have hid := pre_identified acquired.1 acquired.2 hchip
  have h1 : (_read acquired.1 acquired.2 SI7021_CMD_TMP_NOHOLD).1 = 4294967292 := by decide
  have h2 : (_read acquired.1
      (_read acquired.1 acquired.2 SI7021_CMD_TMP_NOHOLD).2.2
      SI7021_CMD_HUM_NOHOLD).1 = 4294967292 := by decide
  refine ⟨by decide, by decide, by decide, ?_, ?_, h1, by decide, ?_, ?_⟩
  · show (pre identified.1 identified.2).1._temperature = _
    rw [hid0.2.1, h01]
    simpa using temperatureOf_24576
  · show (pre identified.1 identified.2).1._humidity = _
    rw [hid0.2.2, h02]
    simpa using humidityOf_32768
  · show (pre acquired.1 acquired.2).1._temperature = _
    rw [hid.2.1, h1]
    simpa using temperatureOf_4294967292
  · show (pre acquired.1 acquired.2).1._humidity = _
    rw [hid.2.2, h2]
    simpa using humidityOf_4294967292

/-- C9: `type(index)` returns the temperature magnitude for index 0 and the
humidity magnitude for index 1, both with `_error` OK, and for every other
index the "none" sentinel with `_error` out-of-range; the bus is left as it
was and no field other than `_error` changes. -/
theorem type_mapping (s : Sensor) (bus : Bus) (index : Nat) :
    (index = 0 → (type s bus index).1 = MAGNITUDE_TEMPERATURE ∧
      (type s bus index).2.1._error = SENSOR_ERROR_OK) ∧
    (index = 1 → (type s bus index).1 = MAGNITUDE_HUMIDITY ∧
      (type s bus index).2.1._error = SENSOR_ERROR_OK) ∧
    (index ≠ 0 → index ≠ 1 → (type s bus index).1 = MAGNITUDE_NONE ∧
      (type s bus index).2.1._error = SENSOR_ERROR_OUT_OF_RANGE) ∧
    (type s bus index).2.2 = bus ∧
    (type s bus index).2.1 = { s with _error := (type s bus index).2.1._error } := by
  unfold type
  refine ⟨?_, ?_, ?_, ?_, ?_⟩
  · intro h
    simp [h]
  · intro h
    simp [h]
  · intro h0 h1
    simp [h0, h1]
  · split
    · rfl
    · split <;> rfl
  · split
    · rfl
    · split <;> rfl

theorem type_mapping_witness :
    (type fresh (idle [] []) 2).1 = MAGNITUDE_NONE ∧
    (type fresh (idle [] []) 2).2.1._error = SENSOR_ERROR_OUT_OF_RANGE :=
  (type_mapping fresh (idle [] []) 2).2.2.1 (by decide) (by decide)

/-- C10: `value(index)` returns `_temperature` for index 0 and `_humidity` for
index 1, both with `_error` OK, and for every other index returns 0 with
`_error` out-of-range; it changes neither `_temperature` nor `_humidity` (no
field other than `_error`), and leaves the bus as it was. -/
theorem value_mapping (s : Sensor) (bus : Bus) (index : Nat) :
    (index = 0 → (value s bus index).1 = s._temperature ∧
      (value s bus index).2.1._error = SENSOR_ERROR_OK) ∧
    (index = 1 → (value s bus index).1 = s._humidity ∧
      (value s bus index).2.1._error = SENSOR_ERROR_OK) ∧
    (index ≠ 0 → index ≠ 1 → (value s bus index).1 = 0 ∧
      (value s bus index).2.1._error = SENSOR_ERROR_OUT_OF_RANGE) ∧
    (value s bus index).2.1._temperature = s._temperature ∧
    (value s bus index).2.1._humidity = s._humidity ∧
    (value s bus index).2.2 = bus ∧
    (value s bus index).2.1 = { s with _error := (value s bus index).2.1._error } := by
  unfold value
  refine ⟨?_, ?_, ?_, ?_, ?_, ?_, ?_⟩
  · intro h
    simp [h]
  · intro h
    simp [h]
  · intro h0 h1
    simp [h0, h1]
  all_goals
    split
    · rfl
    · split <;> rfl

theorem value_mapping_witness :
    (value acquired.1 acquired.2 7).1 = 0 ∧
    (value acquired.1 acquired.2 7).2.1._error = SENSOR_ERROR_OUT_OF_RANGE :=
  (value_mapping acquired.1 acquired.2 7).2.2.1 (by decide) (by decide)

/-- C11: `pre()` changes no field other than `_temperature`, `_humidity` and
`_error`: `_address`, `_chip`, `_count` and `_dirty` are as before, whatever
the state of the object and whatever the bus delivers, so an instance that is
initialized with two channels stays so. -/
theorem pre_changes_only_readings (s : Sensor) (bus : Bus) :
    (pre s bus).1 = { s with
      _temperature := (pre s bus).1._temperature
      _humidity := (pre s bus).1._humidity
      _error := (pre s bus).1._error } ∧
    (pre s bus).1._address = s._address ∧
    (pre s bus).1._chip = s._chip ∧
    (pre s bus).1._count = s._count ∧
    (pre s bus).1._dirty = s._dirty := by
  have h := pre_frame s bus
  refine ⟨?_, h.2.1, h.2.2.2, h.2.2.1, h.1⟩
  rcases h with ⟨h1, h2, h3, h4⟩
  generalize pre s bus = r at *
  rcases r with ⟨⟨d, a, e, c, k, tp, hm⟩, b⟩
  simp_all

/-- C12: on an instance created with `_address = 0`, over every sequence of
calls of `begin()`, `pre()`, `type`, `value`, `description` and `slot` and
every script of the bus, once `_address` holds a non-zero value every further
sequence of calls leaves it as it is. -/
theorem address_immutable (s : Sensor) (bus : Bus) (before after : List Call)
    (hnew : s._address = 0) (hset : (run before (s, bus)).1._address ≠ 0) :
    (run after (run before (s, bus))).1._address = (run before (s, bus)).1._address := by
  have hinv : (s, bus).1._address ≠ 0 → (s, bus).1._dirty = false := by
    intro h
    exact absurd hnew h
  have hd := run_invariant before (s, bus) hinv hset
  exact run_of_not_dirty after (run before (s, bus)) hd

theorem address_immutable_witness :
    (run [Call.acquire, Call.setup, Call.describe, Call.channel_value 0]
      (run [Call.channel_type 0, Call.setup] (fresh, idle [true, false] [[0x15]]))).1._address
      = (run [Call.channel_type 0, Call.setup] (fresh, idle [true, false] [[0x15]])).1._address :=
  address_immutable fresh (idle [true, false] [[0x15]]) [Call.channel_type 0, Call.setup]
    [Call.acquire, Call.setup, Call.describe, Call.channel_value 0] rfl (by decide)

/-- C13: on an instance that passes the gate of `pre()` (every identified
instance does), when the two reads deliver the bytes `m1`, `l1` and then `m2`,
`l2`, `pre()` writes the command 0xF3 and reads, then writes the command 0xF5
and reads, stores the temperature converted from the first raw value (the
conversion of `pre()` in `double`, within `2^-43` of
`175.72 * raw / 65536 - 46.85`) and the humidity converted from the second, and
ends with `_error` OK. -/
theorem pre_success (s : Sensor) (bus : Bus) (m1 l1 m2 l2 : Nat) (rest1 rest2 : List Nat)
    (more : List (List Nat)) (hchip : s._chip ≠ 0)
    (hm1 : m1 < 256) (hl1 : l1 < 256) (hm2 : m2 < 256) (hl2 : l2 < 256)
    (hreply : bus.replies = (m1 :: l1 :: rest1) :: (m2 :: l2 :: rest2) :: more) :
    (pre s bus).2.trace = bus.trace ++
      [BusOp.beginTransmission s._address, BusOp.write 0xF3, BusOp.endTransmission,
        BusOp.requestFrom s._address 3, BusOp.read, BusOp.read,
        BusOp.beginTransmission s._address, BusOp.write 0xF5, BusOp.endTransmission,
        BusOp.requestFrom s._address 3, BusOp.read, BusOp.read] ∧
    (pre s bus).1._temperature
      = temperatureOf ((m1 * 256 + (l1 &&& 0xFC) : Nat) : ℚ) ∧
    |(pre s bus).1._temperature
      - (175.72 * ((m1 * 256 + (l1 &&& 0xFC) : Nat) : ℚ) / 65536 - 46.85)| ≤ 1 / 2 ^ 43 ∧
    (pre s bus).1._humidity
      = max 0 (min 100 (125.0 * ((m2 * 256 + (l2 &&& 0xFC) : Nat) : ℚ) / 65536 - 6)) ∧
    (pre s bus).1._error = SENSOR_ERROR_OK := by
  have hid := pre_identified s bus hchip
  have hraw1 := _read_of_bytes s bus SI7021_CMD_TMP_NOHOLD m1 l1 rest1
    ((m2 :: l2 :: rest2) :: more) hm1 hl1 hreply
  have hsecond : (_read s bus SI7021_CMD_TMP_NOHOLD).2.2.replies
      = (m2 :: l2 :: rest2) :: more := by
    rw [_read_replies, hreply]
    rfl
  have hraw2 := _read_of_bytes s (_read s bus SI7021_CMD_TMP_NOHOLD).2.2 SI7021_CMD_HUM_NOHOLD
    m2 l2 rest2 more hm2 hl2 hsecond
  have hle1 := and_252_le l1
  have hle2 := and_252_le l2
  refine ⟨pre_trace s bus hchip, ?_, ?_, ?_, hid.1⟩
  · rw [hid.2.1, hraw1]
  · rw [hid.2.1, hraw1]
    exact temperatureOf_error _ (by omega)
  · rw [hid.2.2, hraw2, humidityOf_clamp _ (by omega)]

theorem pre_success_witness :
    (pre identified.1 identified.2).1._error = SENSOR_ERROR_OK :=
  (pre_success identified.1 identified.2 0x60 0x00 0x80 0x02 [0x5A] [0x11] []
    (by decide) (by decide) (by decide) (by decide) (by decide) (by decide)).2.2.2.2

/-- C14: for an instance whose `_chip` is 0x15 (resp. 0x32) and whose `_address`
is `a`, `description()` returns "SI7021 @ I2C (0xHH)" (resp.
"HTU21D @ I2C (0xHH)") where HH are the two upper-case hexadecimal digits of
`a`; `slot(index)` returns what `description()` returns for every index, so the
label of both channels is the same. -/
theorem description_text (s : Sensor) (bus : Bus) (index : Nat) (ha : s._address < 256) :
    (s._chip = 0x15 → (description s bus).1 = String.mk ("SI7021 @ I2C (0x".toList ++
      [hexUpper (s._address / 16), hexUpper (s._address % 16)] ++ ")".toList)) ∧
    (s._chip = 0x32 → (description s bus).1 = String.mk ("HTU21D @ I2C (0x".toList ++
      [hexUpper (s._address / 16), hexUpper (s._address % 16)] ++ ")".toList)) ∧
    slot s bus index = description s bus ∧
    (slot s bus 0).1 = (slot s bus 1).1 := by
  refine ⟨fun h => description_si7021 s bus h ha, fun h => ?_, rfl, rfl⟩
  exact description_htu21d s bus (by omega) ha

theorem description_text_witness :
    (description identified.1 identified.2).1 = "SI7021 @ I2C (0x40)" :=
  (description_text identified.1 identified.2 0 (by decide)).1 (by decide)

/-- C15 (as stated, refuted): in the scenario `identified` (fresh instance,
probe acknowledged, identification byte 0x15, temperature bytes 0x60, 0x00),
`begin()` yields `_count = 2` and `_chip = 0x15`, and after `pre()` the value
`value(0)` returns is the `double` 2680345465727221 / 2^47, which is neither
`175.72 * 24576 / 65536 - 46.85` nor 19.045. -/
theorem scenario_si7021_counterexample :
    identified.1._count = 2 ∧
    identified.1._chip = SI7021_CHIP_SI7021 ∧
    (_read identified.1 identified.2 SI7021_CMD_TMP_NOHOLD).1 = 24576 ∧
    (value acquired.1 acquired.2 0).1 = 2680345465727221 / 140737488355328 ∧
    (value acquired.1 acquired.2 0).1 ≠ 175.72 * (24576 : ℚ) / 65536 - 46.85 ∧
    (value acquired.1 acquired.2 0).1 ≠ 19.045 := by
  have hchip : identified.1._chip ≠ 0 := by decide
  have h1 : (_read identified.1 identified.2 SI7021_CMD_TMP_NOHOLD).1 = 24576 := by decide
  have hval : (value acquired.1 acquired.2 0).1 = 2680345465727221 / 140737488355328 := by
    show (pre identified.1 identified.2).1._temperature = _
    rw [(pre_identified identified.1 identified.2 hchip).2.1, h1]
    simpa using temperatureOf_24576
  refine ⟨by decide, by decide, h1, hval, ?_, ?_⟩
  · rw [hval]
    norm_num
  · rw [hval]
    norm_num

/-- C15 (amended): on a fresh instance whose probe is acknowledged and whose
identification byte is 0x15, `begin()` yields `_count = 2` and the chip
SI7021 (`_chip = 0x15`, described as "SI7021 @ I2C (0x40)"); when the
temperature read of the following `pre()` delivers the bytes 0x60, 0x00,
`value(0)` returns `(175.72 * 24576 / 65536) - 46.85` evaluated in `double`,
which is 2680345465727221 / 2^47 (19.044999999999995...): within `2^-43` of
the exact 19.045 and less than 0.005 away from 19.04. -/
theorem scenario_si7021 (bus : Bus) (rest1 rest2 : List Nat) (more : List (List Nat))
    (hack : bus.nextAck = true)
    (hreply : bus.replies = (0x15 :: rest1) :: (0x60 :: 0x00 :: rest2) :: more) :
    (begin fresh bus).1._count = 2 ∧
    (begin fresh bus).1._chip = SI7021_CHIP_SI7021 ∧
    (description (begin fresh bus).1 (begin fresh bus).2).1 = "SI7021 @ I2C (0x40)" ∧
    (value (pre (begin fresh bus).1 (begin fresh bus).2).1
        (pre (begin fresh bus).1 (begin fresh bus).2).2 0).1
      = roundDouble (roundDouble (roundDouble (roundDouble 175.72 * 24576) / 65536)
          - roundDouble 46.85) ∧
    (value (pre (begin fresh bus).1 (begin fresh bus).2).1
        (pre (begin fresh bus).1 (begin fresh bus).2).2 0).1
      = 2680345465727221 / 140737488355328 ∧
    |(value (pre (begin fresh bus).1 (begin fresh bus).2).1
        (pre (begin fresh bus).1 (begin fresh bus).2).2 0).1 - 19.045| ≤ 1 / 2 ^ 43 ∧
    |(value (pre (begin fresh bus).1 (begin fresh bus).2).1
        (pre (begin fresh bus).1 (begin fresh bus).2).2 0).1 - 19.04| < 0.005 := by
  have hb := begin_known fresh bus 0x15 rest1 ((0x60 :: 0x00 :: rest2) :: more) rfl hack
    (Or.inl rfl) hreply
  have hs := hb.1
  have hchip : (begin fresh bus).1._chip ≠ 0 := by
    rw [hs]
    decide
  have hraw := _read_of_bytes (begin fresh bus).1 (begin fresh bus).2 SI7021_CMD_TMP_NOHOLD
    0x60 0x00 rest2 more (by decide) (by decide) hb.2
  have htemp := (pre_identified (begin fresh bus).1 (begin fresh bus).2 hchip).2.1
  rw [hraw] at htemp
  have h24576 : temperatureOf 24576 = 2680345465727221 / 140737488355328 :=
    temperatureOf_24576
  have hval : (value (pre (begin fresh bus).1 (begin fresh bus).2).1
      (pre (begin fresh bus).1 (begin fresh bus).2).2 0).1
      = 2680345465727221 / 140737488355328 := by
    simp only [value, if_true]
    rw [htemp]
    simpa using h24576
  refine ⟨?_, ?_, ?_, ?_, hval, ?_, ?_⟩
  · rw [hs]
  · rw [hs]
    rfl
  · rw [description_si7021 _ _ (by rw [hs]) (by rw [hs]; decide), hs]
    rfl
  · rw [hval, ← h24576]
    rfl
  · rw [hval]
    norm_num [abs_le]
  · rw [hval]
    norm_num [abs_lt]

theorem scenario_si7021_witness :
    (value (pre (begin fresh (idle [true] [[0x15], [0x60, 0x00, 0x5A], [0x80, 0x02, 0x11]])).1
        (begin fresh (idle [true] [[0x15], [0x60, 0x00, 0x5A], [0x80, 0x02, 0x11]])).2).1
        (pre (begin fresh (idle [true] [[0x15], [0x60, 0x00, 0x5A], [0x80, 0x02, 0x11]])).1
          (begin fresh (idle [true] [[0x15], [0x60, 0x00, 0x5A], [0x80, 0x02, 0x11]])).2).2
        0).1
      = 2680345465727221 / 140737488355328 :=
  (scenario_si7021 (idle [true] [[0x15], [0x60, 0x00, 0x5A], [0x80, 0x02, 0x11]])
    [] [0x5A] [[0x80, 0x02, 0x11]] rfl rfl).2.2.2.2.1

/-- C16: in `_read` the three operations that issue the command are performed
at the instant `bus.now`, which is the instant the counter is sampled, and the
read request and the two reads of the result are performed at the instant the
loop is left, which is also the instant `_read` returns.  Between the two the
32-bit counter has advanced by at least 50 (difference taken modulo 2^32, so
also across a wrap of the counter) and at least 50 milliseconds have passed;
50 is not below the 22 ms the comment of the source quotes.  This holds for
every starting value of the counter and every script of durations of
`delay`. -/
theorem _read_waits (s : Sensor) (bus : Bus) (command : Nat) :
    (_read s bus command).2.2.trace = bus.trace ++
      [BusOp.beginTransmission s._address, BusOp.write command, BusOp.endTransmission,
        BusOp.requestFrom s._address (if command = 0xE0 then 2 else 3),
        BusOp.read, BusOp.read] ∧
    (_read s bus command).2.2.stamps = bus.stamps ++
      [bus.now, bus.now, bus.now,
        (_read s bus command).2.2.now, (_read s bus command).2.2.now,
        (_read s bus command).2.2.now] ∧
    50 ≤ ((_read s bus command).2.2.now % 4294967296 + 4294967296
      - bus.now % 4294967296) % 4294967296 ∧
    bus.now + 50 ≤ (_read s bus command).2.2.now ∧
    (22 : Nat) ≤ 50 := by
  have hissued : ∃ issued : Bus, issued
      = Wire.endTransmission (Wire.write (Wire.beginTransmission bus s._address) command) :=
    ⟨_, rfl⟩
  obtain ⟨issued, hissued⟩ := hissued
  have hnow : issued.now = bus.now := by
    rw [hissued]
    rfl
  have hstamps : issued.stamps = bus.stamps ++ [bus.now, bus.now, bus.now] := by
    rw [hissued]
    simp [Wire.endTransmission, Wire.write, Wire.beginTransmission]
  have hwaited : ∃ waited : Bus, waited
      = waitLoop (waitFuel issued) (millis issued).1 issued := ⟨_, rfl⟩
  obtain ⟨waited, hwaited⟩ := hwaited
  have hstart : (millis issued).1 < 4294967296 := by
    simp only [millis]
    omega
  have hexit := waitLoop_exit (millis issued).1 hstart issued.ticks issued (waitFuel issued)
    rfl (le_refl _)
  rw [← hwaited] at hexit
  have hmono := waitLoop_now_le (waitFuel issued) (millis issued).1 issued
  rw [← hwaited] at hmono
  have hframe := waitLoop_stamps (waitFuel issued) (millis issued).1 issued
  rw [← hwaited] at hframe
  have hread : (_read s bus command).2.2
      = (Wire.read (Wire.read
          (Wire.requestFrom waited s._address (if command = 0xE0 then 2 else 3))).2).2 := by
    rw [hwaited, hissued]
    rfl
  have hend : (_read s bus command).2.2.now = waited.now := by
    rw [hread]
    rfl
  simp only [millis] at hexit
  refine ⟨_read_trace s bus command, ?_, ?_, ?_, by decide⟩
  · rw [hend, hread]
    simp [Wire.requestFrom, Wire.read, hframe, hstamps]
  · rw [hend]
    omega
  · rw [hend]
    omega

theorem _read_waits_witness :
    (_read { fresh with _address := 0x40 }
      { idle [] [[0x60, 0x00]] with now := 4294967290, ticks := [3, 0, 40] } 0xF3).2.2.stamps
      = [4294967290, 4294967290, 4294967290, 4294967340, 4294967340, 4294967340] :=
  (_read_waits { fresh with _address := 0x40 }
    { idle [] [[0x60, 0x00]] with now := 4294967290, ticks := [3, 0, 40] } 0xF3).2.1

/-- C17: `type(index)` and `value(index)` with index 0 or 1 end with `_error`
OK whatever the state before the call, so whatever error `begin()` or `pre()`
left; `value(0)` and `value(1)` still return the cached `_temperature` and
`_humidity`, also when `_chip` is unidentified. -/
theorem accessors_reset_error (s : Sensor) (bus : Bus) :
    (type s bus 0).2.1._error = SENSOR_ERROR_OK ∧
    (type s bus 1).2.1._error = SENSOR_ERROR_OK ∧
    (value s bus 0).2.1._error = SENSOR_ERROR_OK ∧
    (value s bus 1).2.1._error = SENSOR_ERROR_OK ∧
    (value s bus 0).1 = s._temperature ∧
    (value s bus 1).1 = s._humidity ∧
    (value (pre misidentified.1 misidentified.2).1 (pre misidentified.1 misidentified.2).2
      0).2.1._error = SENSOR_ERROR_OK ∧
    (value misidentified.1 misidentified.2 0).2.1._error = SENSOR_ERROR_OK ∧
    misidentified.1._error = SENSOR_ERROR_UNKNOWN_ID := by
  refine ⟨rfl, rfl, rfl, rfl, rfl, rfl, rfl, rfl, by decide⟩

/-- C18: `description()` chooses the name by the test `_chip == 0x15` alone:
the text starts with "SI7021" exactly when `_chip` is 0x15, and with "HTU21D"
for every other value of `_chip`, an unrecognized byte such as 0xFF
included. -/
theorem description_name (s : Sensor) (bus : Bus) :
    ((description s bus).1.toList.take 6 = "SI7021".toList ↔ s._chip = 0x15) ∧
    (s._chip ≠ 0x15 → (description s bus).1.toList.take 6 = "HTU21D".toList) ∧
    (description misidentified.1 misidentified.2).1 = "HTU21D @ I2C (0x40)" ∧
    misidentified.1._chip = 0xFF := by
  have hother : s._chip ≠ 0x15 → (description s bus).1.toList.take 6 = "HTU21D".toList := by
    intro h
    simp only [description, snprintf, h, SI7021_CHIP_SI7021, if_false]
    rfl
  refine ⟨⟨?_, ?_⟩, hother, by decide, by decide⟩
  · intro h
    by_contra hne
    rw [hother hne] at h
    exact absurd h (by decide)
  · intro h
    simp only [description, snprintf, h, SI7021_CHIP_SI7021, if_true]
    rfl

theorem description_name_witness :
    (description misidentified.1 misidentified.2).1.toList.take 6 = "HTU21D".toList :=
  (description_name misidentified.1 misidentified.2).2.1 (by decide)

end SI7021Sensor
